import Mathlib

/-!
Verification of the project-switching core of the pioarduino VSCode IDE extension.

The development shallowly embeds `ProjectManager` (src/unnamed/part_001): its
`switchToProject` pipeline, the active-directory resolution
(`findActiveProjectDir` / `getSelectedProjectDir`), the configuration-change
debounce handler (`onDidChangeProjectConfig`), the state persistence
(`saveActiveProjectState`), and `PythonPrompt.prompt`
(src/src/installer/python-prompt.js).

External collaborators (the `pioNodeHelpers.project.ProjectPool` package and
the repository's `helpers.js` / `utils.js`, which are not among the embedded
sources) are modelled from the specification's contracts; each such definition
carries a doc comment saying so.
-/

/-- The auxiliary per-project resources that `switchToProject` creates:
`new ProjectTaskManager(projectDir, observer)` and
`new ProjectTestManager(projectDir)` (part_001 lines 354-357). -/
inductive AuxRes where
  | taskManager (projectDir : String)
  | testManager (projectDir : String)
deriving DecidableEq, Repr

/-- Association-list read; JavaScript object/map lookup returning `undefined`
(`none`) for an absent key. -/
def assocGet : List (String × Option String) → String → Option String
  | [], _ => none
  | (k', v) :: rest, k => if k' = k then v else assocGet rest k

/-- Whether the association list has an entry for the key. -/
def hasKey : List (String × Option String) → String → Bool
  | [], _ => false
  | (k', _) :: rest, k => k' = k || hasKey rest k

/-- Association-list write: replace the entry in place, or append a new one. -/
def upsert : List (String × Option String) → String → Option String → List (String × Option String)
  | [], k, v => [(k, v)]
  | (k', v') :: rest, k, v =>
    if k' = k then (k, v) :: rest else (k', v') :: upsert rest k v

/-- The `ProjectManager` state visible to the claims.

* `observers` — the pool's directory-to-observer map; per the data model each
  observer's relevant state is its currently selected environment
  (`getSelectedEnv()`), `none` when no environment was explicitly chosen.
* `poolActiveDir` — the directory of `this._pool.getActiveObserver()`
  (`none` when no project is active).
* `taskManagerField` — `this._taskManager`.
* `internalSubscriptions` — `this.internalSubscriptions`, the live auxiliary
  resources (task manager, test manager).
* `disposedLog` — every auxiliary resource that has been disposed, in disposal
  order (the observable effect of `disposeSubscriptions`).
* `persistedSelectedEnv` — the persisted per-directory `selectedEnv` record
  written by `updateProjectItemState` and read by `getProjectItemState`.
* `sbText` — `this._sbEnvSwitcher.text`. -/
structure PMState where
  observers : List (String × Option String)
  poolActiveDir : Option String
  taskManagerField : Option AuxRes
  internalSubscriptions : List AuxRes
  disposedLog : List AuxRes
  persistedSelectedEnv : List (String × Option String)
  sbText : String
deriving DecidableEq, Repr

/-- A fresh `ProjectManager`: no observers, no active project, no auxiliary
resources, nothing persisted. -/
def pmInit : PMState :=
  { observers := []
    poolActiveDir := none
    taskManagerField := none
    internalSubscriptions := []
    disposedLog := []
    persistedSelectedEnv := []
    sbText := "" }

/-- The value of `observer.getSelectedEnv()` for the observer of `dir`. -/
def observerEnv (st : PMState) (dir : String) : Option String :=
  assocGet st.observers dir

/-- Modelled from the spec: `ObserverRegistry.getObserver(dir)` "returns the
existing Observer for dir or constructs one; idempotent; no side effect on
auxiliary resources" (spec 4.1); a fresh observer has no selected environment.
The pool (`pioNodeHelpers.project.ProjectPool`) is an external collaborator. -/
def ensureObserver (st : PMState) (dir : String) : PMState :=
  if hasKey st.observers dir then st
  else { st with observers := st.observers ++ [(dir, none)] }

/-- Modelled from the spec: `observer.switchProjectEnv(value)` records `value`
as the observer's selected environment ("use it and record it on the observer",
spec 4.5 step 6). -/
def setObserverEnv (st : PMState) (dir : String) (env : Option String) : PMState :=
  { st with observers := upsert st.observers dir env }

/-- Modelled from the spec: `getProjectItemState(dir, name)` reads the persisted
per-project record ("Persisted key-value store: get(key) -> value|none",
spec 6); here specialised to the `selectedEnv` item. -/
def getProjectItemState (st : PMState) (dir : String) : Option String :=
  assocGet st.persistedSelectedEnv dir

/-- Modelled from the spec: `updateProjectItemState(dir, name, value)` writes
the persisted per-project record ("set(key, value)", spec 6); here specialised
to the `selectedEnv` item. -/
def updateProjectItemState (st : PMState) (dir : String) (env : Option String) : PMState :=
  { st with persistedSelectedEnv := upsert st.persistedSelectedEnv dir env }

/-- Modelled from the spec: `disposeSubscriptions(this.internalSubscriptions)`
(utils.js) disposes "all current auxiliary resources ... in full" (spec 4.5
step 8) and empties the list; each disposed resource is appended to the log. -/
def disposeInternals (st : PMState) : PMState :=
  { st with
    internalSubscriptions := []
    disposedLog := st.disposedLog ++ st.internalSubscriptions }

/-- Modelled from the spec: `await this._pool.switch(projectDir)` tells the
pool to treat `projectDir` as foreground (spec 4.1 `switchActive`);
afterwards `getActiveObserver()` is the observer of `projectDir`. -/
def poolSwitch (st : PMState) (dir : String) : PMState :=
  { ensureObserver st dir with poolActiveDir := some dir }

/-- Lines 354-358: `this._taskManager = new ProjectTaskManager(projectDir,
observer)` and `this.internalSubscriptions.push(this._taskManager,
new ProjectTestManager(projectDir))`. -/
def createAuxResources (st : PMState) (dir : String) : PMState :=
  { st with
    taskManagerField := some (AuxRes.taskManager dir)
    internalSubscriptions :=
      st.internalSubscriptions ++ [AuxRes.taskManager dir, AuxRes.testManager dir] }

/-- Lines 395-406 (`showSelectedEnv`): label text, with the environment part of
line 400-402; `path.basename` is an external path operation, the model keeps
the full directory name. -/
def envLabel (env : Option String) (dir : String) : String :=
  "$(root-folder) " ++ (match env with
    | some e => "env:" ++ e
    | none => "Default") ++ " (" ++ dir ++ ")"

/-- Lines 395-406: `showSelectedEnv()` updates the status-bar text from the
active observer, doing nothing when there is none. -/
def showSelectedEnv (st : PMState) : PMState :=
  match st.poolActiveDir with
  | none => st
  | some d => { st with sbText := envLabel (observerEnv st d) d }

/-- Lines 293-303: `saveActiveProjectState()` persists the active observer's
`(projectDir, getSelectedEnv())`, doing nothing when no observer is active. -/
def saveActiveProjectState (st : PMState) : PMState :=
  match st.poolActiveDir with
  | none => st
  | some d => updateProjectItemState st d (observerEnv st d)

/-- The `options` argument of `switchToProject`. `envGiven = some v` models the
key `env` being present with value `v` (which may itself be `undefined`, i.e.
`none`): line 337 tests presence with `'env' in options`, not truthiness. -/
structure SwitchOptions where
  envGiven : Option (Option String)
  force : Bool
deriving DecidableEq, Repr

/-- Outcome of `await this._configProvider.lintConfig(configUri)` (line 323):
the linter resolves `true`, resolves `false`, or rejects with a parse error. -/
inductive LintOutcome where
  | valid
  | invalid
  | throws
deriving DecidableEq, Repr

/-- Lines 312-317: the snapshot of the previously active project taken before
any suspension — `currentProjectDir` / `currentEnv` from
`this._pool.getActiveObserver()`. -/
structure SwitchSnapshot where
  currentProjectDir : Option String
  currentEnv : Option String
deriving DecidableEq, Repr

/-- The value of `getActiveObserver().getSelectedEnv()` guarded by the observer existing
(lines 314-317). -/
def getActiveObserverEnv (st : PMState) : Option String :=
  match st.poolActiveDir with
  | some d => observerEnv st d
  | none => none

/-- The snapshot `switchToProject` takes at lines 312-317. -/
def switchSnapshot (st : PMState) : SwitchSnapshot :=
  { currentProjectDir := st.poolActiveDir
    currentEnv := getActiveObserverEnv st }

/-- Lines 305-318, up to the first suspension point (the `await` on the
linter): set the status-bar text to the loading indicator (line 310) and fetch
the observer for the target directory (line 318). The snapshot of lines
312-317 is `switchSnapshot` of the same state. -/
def switchPhase1 (st : PMState) (projectDir : String) : PMState :=
  ensureObserver { st with sbText := "$(root-folder) Loading..." } projectDir

/-- Lines 337-343: determine the target environment. If `options.env` is
present, record it on the observer; else if the observer has no selection,
load the persisted last-used environment for the directory. -/
def resolveEnvStep (st : PMState) (projectDir : String) (opts : SwitchOptions) : PMState :=
  match opts.envGiven with
  | some e => setObserverEnv st projectDir e
  | none =>
    if (observerEnv st projectDir).isNone then
      setObserverEnv st projectDir (getProjectItemState st projectDir)
    else st

/-- Lines 320-373, the continuation of `switchToProject` once the linter has
settled.

* `lint = invalid`: lines 324-332 — show an error message, reveal the config
  file (both external UI effects) and `return`.
* `lint = throws`: line 333-335 — the rejection is caught, logged with
  `console.error`, and execution falls through to the environment step.
* Then lines 337-343 (environment), lines 345-358 (the transition, guarded by
  the `options.force || !currentProjectDir || currentProjectDir !== projectDir
  || currentEnv !== observer.getSelectedEnv()` condition of lines 346-351;
  lines 360-368 only open an editor, an external UI effect), and lines 371-372
  (`showSelectedEnv(); saveActiveProjectState()`). -/
def switchPhase2 (st : PMState) (projectDir : String) (opts : SwitchOptions)
    (snap : SwitchSnapshot) (lint : LintOutcome) : PMState :=
  match lint with
  | LintOutcome.invalid => st
  | _ =>
    let st1 := resolveEnvStep st projectDir opts
    let st2 :=
      if opts.force = true ∨ snap.currentProjectDir = none ∨
          ¬(snap.currentProjectDir = some projectDir) ∨
          ¬(snap.currentEnv = observerEnv st1 projectDir) then
        createAuxResources (poolSwitch (disposeInternals st1) projectDir) projectDir
      else st1
    saveActiveProjectState (showSelectedEnv st2)

/-- Lines 305-373: `switchToProject(projectDir, options)` run to completion
with no interleaved call — `return` on a missing directory (lines 306-309),
otherwise phase 1 followed by the post-linter continuation on the snapshot
taken before the suspension. -/
def switchToProject (st : PMState) (projectDir? : Option String)
    (opts : SwitchOptions) (lint : LintOutcome) : PMState :=
  match projectDir? with
  | none => st
  | some projectDir =>
    switchPhase2 (switchPhase1 st projectDir) projectDir opts (switchSnapshot st) lint

/-- The interleaving in which `switchToProject dirA` is suspended at its
validation `await` (end of phase 1) when `switchToProject dirB` is issued and
runs to completion, after which A's continuation resumes with its
previously-taken snapshot. Both linter calls resolve `true`, both calls pass
no options. -/
def interleavedRun (st : PMState) (dirA dirB : String) : PMState :=
  let stA := switchPhase1 st dirA
  let snapA := switchSnapshot st
  let stB := switchToProject stA (some dirB) ⟨none, false⟩ LintOutcome.valid
  switchPhase2 stB dirA ⟨none, false⟩ snapA LintOutcome.valid

/-- One `switchToProject` request together with its linter outcome. -/
structure SwitchRequest where
  projectDir : Option String
  opts : SwitchOptions
  lint : LintOutcome

/-- Apply a request as a completed (serialized) call. -/
def applyRequest (st : PMState) (r : SwitchRequest) : PMState :=
  switchToProject st r.projectDir r.opts r.lint

/-- All serialization points of a request sequence: the state before the first
call and after each completed call. -/
def runStates : PMState → List SwitchRequest → List PMState
  | st, [] => [st]
  | st, r :: rs => st :: runStates (applyRequest st r) rs

/-- The live auxiliary resources belong to at most one project directory:
either none are live, or exactly the task/test pair of a single directory. -/
def auxOk (st : PMState) : Bool :=
  match st.internalSubscriptions with
  | [] => true
  | [AuxRes.taskManager d1, AuxRes.testManager d2] => d1 == d2
  | _ => false

/-! ### The configuration-change debounce handler

`onDidChangeProjectConfig` (part_001 lines 195-208). The manager holds a
single field `this._configChangedTimeout`; a signal clears any pending timer
(lines 197-200: `clearTimeout`) and schedules
`this.switchToProject(projectDir, { force: true })` (lines 201-207). -/

/-- Debouncer state: the single pending timer (holding the directory whose
forced switch is scheduled) and the log of `switchToProject` invocations the
expired timers have fired, as `(projectDir, force)` pairs. -/
structure DebounceState where
  configChangedTimeout : Option String
  firedSwitches : List (String × Bool)
deriving DecidableEq, Repr

/-- No pending timer, nothing fired. -/
def debInit : DebounceState := { configChangedTimeout := none, firedSwitches := [] }

/-- Lines 195-208: a configuration-change signal for `projectDir`
(`path.dirname(configPath)`): any pending timer is cancelled and the single
timeout field is re-armed for `projectDir`. -/
def onDidChangeProjectConfigSignal (s : DebounceState) (projectDir : String) : DebounceState :=
  { s with configChangedTimeout := some projectDir }

/-- Expiry of the pending timer: its callback runs
`switchToProject(projectDir, { force: true })` once (the timer, having fired,
is no longer pending — a later `clearTimeout` on its handle is a no-op). -/
def timerExpire (s : DebounceState) : DebounceState :=
  match s.configChangedTimeout with
  | some d =>
    { configChangedTimeout := none, firedSwitches := s.firedSwitches ++ [(d, true)] }
  | none => s

/-- A burst of signals in one debounce window (no expiry between them). -/
def signalAll (s : DebounceState) (dirs : List String) : DebounceState :=
  dirs.foldl onDidChangeProjectConfigSignal s

/-! ### The debounce delay expression

Line 146 declares `CONFIG_CHANGED_DELAY = 3; // seconds` — a class field
without `static`, hence a property of each *instance*, not of the
`ProjectManager` class object. Line 206 computes the `setTimeout` delay as
`ProjectManager.CONFIG_CHANGED_DELAY * 1000` — a property lookup on the class
object itself. -/

/-- A JavaScript number as needed here: an ordinary numeral or `NaN`. -/
inductive JSNumber where
  | num (n : Nat)
  | nan
deriving DecidableEq, Repr

/-- The instance class field of line 146: `CONFIG_CHANGED_DELAY = 3`. -/
def ProjectManager.CONFIG_CHANGED_DELAY : Nat := 3

/-- Property lookup on the `ProjectManager` class object. The class declares
no `static` properties at all (line 146 is an instance field), so every such
lookup yields `undefined`. -/
def ProjectManager.classProperty : String → Option Nat := fun _ => none

/-- JavaScript multiplication of a possibly-`undefined` operand by a numeral:
`undefined * k` is `NaN`. -/
def jsMulUndef (a : Option Nat) (k : Nat) : JSNumber :=
  match a with
  | some n => JSNumber.num (n * k)
  | none => JSNumber.nan

/-- The delay expression passed to `setTimeout` at line 206:
`ProjectManager.CONFIG_CHANGED_DELAY * 1000`. -/
def configChangedTimerDelay : JSNumber :=
  jsMulUndef (ProjectManager.classProperty "CONFIG_CHANGED_DELAY") 1000

/-! ### Active-directory resolution

`findActiveProjectDir` (lines 263-269) and `getSelectedProjectDir`
(lines 271-291). The candidate list (`getPIOProjectDirs()`), the focused
editor's project directory, the pool's active directory and the persisted
last directory are inputs. -/

/-- The JavaScript test `d? && dirs.find((projectDir) => projectDir === d?)`
of lines 277-289: the optional directory is truthy and occurs in the list. -/
def memCandidate (dirs : List String) (d? : Option String) : Bool :=
  match d? with
  | some d => dirs.contains d
  | none => false

/-- Lines 271-291: `getSelectedProjectDir()` — `undefined` when there are no
candidates; else the pool's active directory if it is a candidate; else the
persisted last directory if it is a candidate; else the first candidate. -/
def getSelectedProjectDir (dirs : List String)
    (currentActiveDir lastActiveDir : Option String) : Option String :=
  if dirs.length < 1 then none
  else if memCandidate dirs currentActiveDir then currentActiveDir
  else if memCandidate dirs lastActiveDir then lastActiveDir
  else dirs.head?

/-- Modelled from the spec: `projectHelpers.getActiveEditorProjectDir()`
(helpers.js, not among the embedded sources) returns the focused editor's
project directory when it is one of the workspace's project directories,
else `undefined` ("If focusedEditorDir is non-none and belongs to
candidates ... return it", spec 4.4 step 1). -/
def getActiveEditorProjectDir (dirs : List String)
    (focusedEditorDir : Option String) : Option String :=
  match focusedEditorDir with
  | some d => if dirs.contains d then some d else none
  | none => none

/-- Lines 263-269: `findActiveProjectDir()` — the focused editor's project
directory when the `activateProjectOnTextEditorChange` option is enabled
(line 265), with `projectDir || this.getSelectedProjectDir()` as fallback. -/
def findActiveProjectDir (activateOnFocus : Bool) (dirs : List String)
    (focusedEditorDir currentActiveDir lastActiveDir : Option String) : Option String :=
  let projectDir :=
    if activateOnFocus then getActiveEditorProjectDir dirs focusedEditorDir else none
  match projectDir with
  | some d => some d
  | none => getSelectedProjectDir dirs currentActiveDir lastActiveDir

/-- The policy `ActiveSelectionPolicy.resolve`, written from the specification's own
wording (spec 4.4): focus wins when enabled and a candidate, then continuity,
then history, then the first candidate, and none exactly on an empty list. -/
def ActiveSelectionPolicy.resolve (candidates : List String) (activateOnFocus : Bool)
    (focusedEditorDir currentActiveDir persistedLastDir : Option String) : Option String :=
  if activateOnFocus && memCandidate candidates focusedEditorDir then focusedEditorDir
  else if memCandidate candidates currentActiveDir then currentActiveDir
  else if memCandidate candidates persistedLastDir then persistedLastDir
  else candidates.head?

/-! ### PythonPrompt

`PythonPrompt.prompt` (src/src/installer/python-prompt.js lines 17-57). The
user's interaction with the message box and the input box is the input. -/

namespace PythonPrompt

/-- Line 13: `STATUS_TRY_AGAIN = 0`. -/
def STATUS_TRY_AGAIN : Nat := 0

/-- Line 14: `STATUS_ABORT = 1`. -/
def STATUS_ABORT : Nat := 1

/-- Line 15: `STATUS_CUSTOMEXE = 2`. -/
def STATUS_CUSTOMEXE : Nat := 2

/-- The user's interaction: one of the four message-box items, or dismissing
the box (`showInformationMessage` resolving `undefined`). Choosing
"I have Python" carries the subsequent input-box outcome (`none` when the
input box is cancelled). -/
inductive Selection where
  | installPython
  | iHavePython (inputBoxResult : Option String)
  | tryAgain
  | abortInstallation
  | dismissed
deriving DecidableEq, Repr

/-- The value `prompt()` resolves with. -/
structure PromptResult where
  status : Nat
  pythonExecutable : Option String
deriving DecidableEq, Repr

/-- Lines 17-57: `result` starts as `{ status: STATUS_TRY_AGAIN }`;
"Install Python" only opens a documentation URL (an external effect);
"I have Python" upgrades the result to `STATUS_CUSTOMEXE` only when the input
box yields a truthy (non-empty) string (line 44 `if (pythonExecutable)`);
"Abort pioarduino IDE Installation" yields `STATUS_ABORT`; "Try again" and a
dismissed dialog fall through to the default. -/
def prompt (sel : Selection) : PromptResult :=
  match sel with
  | Selection.installPython =>
    { status := STATUS_TRY_AGAIN, pythonExecutable := none }
  | Selection.iHavePython input =>
    match input with
    | some exe =>
      if exe = "" then { status := STATUS_TRY_AGAIN, pythonExecutable := none }
      else { status := STATUS_CUSTOMEXE, pythonExecutable := some exe }
    | none => { status := STATUS_TRY_AGAIN, pythonExecutable := none }
  | Selection.tryAgain => { status := STATUS_TRY_AGAIN, pythonExecutable := none }
  | Selection.abortInstallation => { status := STATUS_ABORT, pythonExecutable := none }
  | Selection.dismissed => { status := STATUS_TRY_AGAIN, pythonExecutable := none }

end PythonPrompt

/-- A state with project "A" active and its auxiliary resources live,
as after a completed successful switch to "A". -/
def activeAState : PMState :=
  { observers := [("A", none)]
    poolActiveDir := some "A"
    taskManagerField := some (AuxRes.taskManager "A")
    internalSubscriptions := [AuxRes.taskManager "A", AuxRes.testManager "A"]
    disposedLog := []
    persistedSelectedEnv := [("A", none)]
    sbText := "" }

/-- A process restart: the in-memory manager state (pool, observers, auxiliary
resources, status bar) is gone, while the persisted per-project record — the
durable key-value store of spec 6 — survives. -/
def restartPreservingPersisted (st : PMState) : PMState :=
  { pmInit with persistedSelectedEnv := st.persistedSelectedEnv }

/-! ## Helper lemmas -/

theorem assocGet_append_none (l : List (String × Option String)) (k d : String) :
    assocGet (l ++ [(k, none)]) d = assocGet l d := by
  induction l with
  | nil => simp [assocGet]
  | cons p rest ih => cases p with
    | mk k' v => simp only [List.cons_append, assocGet]; split <;> simp [ih]

@[simp] theorem assocGet_upsert_self (l : List (String × Option String))
    (k : String) (v : Option String) : assocGet (upsert l k v) k = v := by
  induction l with
  | nil => simp [upsert, assocGet]
  | cons p rest ih => cases p with
    | mk k' v' =>
      by_cases h : k' = k
      · simp [upsert, assocGet, h]
      · simp [upsert, assocGet, h, ih]

theorem assocGet_upsert_other (l : List (String × Option String))
    (k : String) (v : Option String) (d : String) (h : ¬(k = d)) :
    assocGet (upsert l k v) d = assocGet l d := by
  induction l with
  | nil => simp [upsert, assocGet, h]
  | cons p rest ih => cases p with
    | mk k' v' =>
      by_cases h2 : k' = k
      · simp [upsert, assocGet, h2, h]
      · simp only [upsert, assocGet, if_neg h2]
        split <;> simp [ih]

@[simp] theorem ensureObserver_poolActiveDir (st : PMState) (dir : String) :
    (ensureObserver st dir).poolActiveDir = st.poolActiveDir := by
  unfold ensureObserver; split <;> rfl

@[simp] theorem ensureObserver_internalSubscriptions (st : PMState) (dir : String) :
    (ensureObserver st dir).internalSubscriptions = st.internalSubscriptions := by
  unfold ensureObserver; split <;> rfl

@[simp] theorem ensureObserver_disposedLog (st : PMState) (dir : String) :
    (ensureObserver st dir).disposedLog = st.disposedLog := by
  unfold ensureObserver; split <;> rfl

@[simp] theorem ensureObserver_taskManagerField (st : PMState) (dir : String) :
    (ensureObserver st dir).taskManagerField = st.taskManagerField := by
  unfold ensureObserver; split <;> rfl

@[simp] theorem ensureObserver_persistedSelectedEnv (st : PMState) (dir : String) :
    (ensureObserver st dir).persistedSelectedEnv = st.persistedSelectedEnv := by
  unfold ensureObserver; split <;> rfl

@[simp] theorem observerEnv_ensureObserver (st : PMState) (dir d : String) :
    observerEnv (ensureObserver st dir) d = observerEnv st d := by
  unfold ensureObserver observerEnv
  split
  · rfl
  · exact assocGet_append_none st.observers dir d

@[simp] theorem showSelectedEnv_observers (st : PMState) :
    (showSelectedEnv st).observers = st.observers := by
  cases h : st.poolActiveDir <;> simp [showSelectedEnv, h]

@[simp] theorem showSelectedEnv_poolActiveDir (st : PMState) :
    (showSelectedEnv st).poolActiveDir = st.poolActiveDir := by
  cases h : st.poolActiveDir <;> simp [showSelectedEnv, h]

@[simp] theorem showSelectedEnv_internalSubscriptions (st : PMState) :
    (showSelectedEnv st).internalSubscriptions = st.internalSubscriptions := by
  cases h : st.poolActiveDir <;> simp [showSelectedEnv, h]

@[simp] theorem showSelectedEnv_disposedLog (st : PMState) :
    (showSelectedEnv st).disposedLog = st.disposedLog := by
  cases h : st.poolActiveDir <;> simp [showSelectedEnv, h]

@[simp] theorem showSelectedEnv_taskManagerField (st : PMState) :
    (showSelectedEnv st).taskManagerField = st.taskManagerField := by
  cases h : st.poolActiveDir <;> simp [showSelectedEnv, h]

@[simp] theorem showSelectedEnv_persistedSelectedEnv (st : PMState) :
    (showSelectedEnv st).persistedSelectedEnv = st.persistedSelectedEnv := by
  cases h : st.poolActiveDir <;> simp [showSelectedEnv, h]

@[simp] theorem observerEnv_showSelectedEnv (st : PMState) (d : String) :
    observerEnv (showSelectedEnv st) d = observerEnv st d := by
  unfold observerEnv; rw [showSelectedEnv_observers]

@[simp] theorem saveActiveProjectState_observers (st : PMState) :
    (saveActiveProjectState st).observers = st.observers := by
  cases h : st.poolActiveDir <;> simp [saveActiveProjectState, updateProjectItemState, h]

@[simp] theorem saveActiveProjectState_poolActiveDir (st : PMState) :
    (saveActiveProjectState st).poolActiveDir = st.poolActiveDir := by
  cases h : st.poolActiveDir <;> simp [saveActiveProjectState, updateProjectItemState, h]

@[simp] theorem saveActiveProjectState_internalSubscriptions (st : PMState) :
    (saveActiveProjectState st).internalSubscriptions = st.internalSubscriptions := by
  cases h : st.poolActiveDir <;> simp [saveActiveProjectState, updateProjectItemState, h]

@[simp] theorem saveActiveProjectState_disposedLog (st : PMState) :
    (saveActiveProjectState st).disposedLog = st.disposedLog := by
  cases h : st.poolActiveDir <;> simp [saveActiveProjectState, updateProjectItemState, h]

@[simp] theorem saveActiveProjectState_taskManagerField (st : PMState) :
    (saveActiveProjectState st).taskManagerField = st.taskManagerField := by
  cases h : st.poolActiveDir <;> simp [saveActiveProjectState, updateProjectItemState, h]

@[simp] theorem saveActiveProjectState_sbText (st : PMState) :
    (saveActiveProjectState st).sbText = st.sbText := by
  cases h : st.poolActiveDir <;> simp [saveActiveProjectState, updateProjectItemState, h]

@[simp] theorem observerEnv_saveActiveProjectState (st : PMState) (d : String) :
    observerEnv (saveActiveProjectState st) d = observerEnv st d := by
  unfold observerEnv; rw [saveActiveProjectState_observers]

theorem saveActiveProjectState_persisted_of_active (st : PMState) (d : String)
    (h : st.poolActiveDir = some d) :
    (saveActiveProjectState st).persistedSelectedEnv
      = upsert st.persistedSelectedEnv d (observerEnv st d) := by
  simp [saveActiveProjectState, updateProjectItemState, h]

@[simp] theorem setObserverEnv_poolActiveDir (st : PMState) (dir : String) (e : Option String) :
    (setObserverEnv st dir e).poolActiveDir = st.poolActiveDir := rfl

@[simp] theorem setObserverEnv_internalSubscriptions (st : PMState) (dir : String)
    (e : Option String) :
    (setObserverEnv st dir e).internalSubscriptions = st.internalSubscriptions := rfl

@[simp] theorem setObserverEnv_disposedLog (st : PMState) (dir : String) (e : Option String) :
    (setObserverEnv st dir e).disposedLog = st.disposedLog := rfl

@[simp] theorem setObserverEnv_taskManagerField (st : PMState) (dir : String) (e : Option String) :
    (setObserverEnv st dir e).taskManagerField = st.taskManagerField := rfl

@[simp] theorem setObserverEnv_persistedSelectedEnv (st : PMState) (dir : String)
    (e : Option String) :
    (setObserverEnv st dir e).persistedSelectedEnv = st.persistedSelectedEnv := rfl

@[simp] theorem observerEnv_setObserverEnv_self (st : PMState) (dir : String) (e : Option String) :
    observerEnv (setObserverEnv st dir e) dir = e :=
  assocGet_upsert_self st.observers dir e

@[simp] theorem resolveEnvStep_poolActiveDir (st : PMState) (dir : String) (opts : SwitchOptions) :
    (resolveEnvStep st dir opts).poolActiveDir = st.poolActiveDir := by
  unfold resolveEnvStep
  cases opts.envGiven with
  | some e => simp
  | none => by_cases h : (observerEnv st dir).isNone <;> simp [h]

@[simp] theorem resolveEnvStep_internalSubscriptions (st : PMState) (dir : String)
    (opts : SwitchOptions) :
    (resolveEnvStep st dir opts).internalSubscriptions = st.internalSubscriptions := by
  unfold resolveEnvStep
  cases opts.envGiven with
  | some e => simp
  | none => by_cases h : (observerEnv st dir).isNone <;> simp [h]

@[simp] theorem resolveEnvStep_disposedLog (st : PMState) (dir : String) (opts : SwitchOptions) :
    (resolveEnvStep st dir opts).disposedLog = st.disposedLog := by
  unfold resolveEnvStep
  cases opts.envGiven with
  | some e => simp
  | none => by_cases h : (observerEnv st dir).isNone <;> simp [h]

@[simp] theorem resolveEnvStep_taskManagerField (st : PMState) (dir : String)
    (opts : SwitchOptions) :
    (resolveEnvStep st dir opts).taskManagerField = st.taskManagerField := by
  unfold resolveEnvStep
  cases opts.envGiven with
  | some e => simp
  | none => by_cases h : (observerEnv st dir).isNone <;> simp [h]

@[simp] theorem resolveEnvStep_persistedSelectedEnv (st : PMState) (dir : String)
    (opts : SwitchOptions) :
    (resolveEnvStep st dir opts).persistedSelectedEnv = st.persistedSelectedEnv := by
  unfold resolveEnvStep
  cases opts.envGiven with
  | some e => simp
  | none => by_cases h : (observerEnv st dir).isNone <;> simp [h]

@[simp] theorem poolSwitch_poolActiveDir (st : PMState) (dir : String) :
    (poolSwitch st dir).poolActiveDir = some dir := rfl

@[simp] theorem poolSwitch_internalSubscriptions (st : PMState) (dir : String) :
    (poolSwitch st dir).internalSubscriptions = st.internalSubscriptions := by
  unfold poolSwitch
  exact ensureObserver_internalSubscriptions st dir

@[simp] theorem poolSwitch_disposedLog (st : PMState) (dir : String) :
    (poolSwitch st dir).disposedLog = st.disposedLog := by
  unfold poolSwitch
  exact ensureObserver_disposedLog st dir

@[simp] theorem poolSwitch_taskManagerField (st : PMState) (dir : String) :
    (poolSwitch st dir).taskManagerField = st.taskManagerField := by
  unfold poolSwitch
  exact ensureObserver_taskManagerField st dir

@[simp] theorem poolSwitch_persistedSelectedEnv (st : PMState) (dir : String) :
    (poolSwitch st dir).persistedSelectedEnv = st.persistedSelectedEnv := by
  unfold poolSwitch
  exact ensureObserver_persistedSelectedEnv st dir

@[simp] theorem observerEnv_poolSwitch (st : PMState) (dir d : String) :
    observerEnv (poolSwitch st dir) d = observerEnv st d := by
  unfold poolSwitch
  exact observerEnv_ensureObserver st dir d

@[simp] theorem disposeInternals_observers (st : PMState) :
    (disposeInternals st).observers = st.observers := rfl

@[simp] theorem disposeInternals_poolActiveDir (st : PMState) :
    (disposeInternals st).poolActiveDir = st.poolActiveDir := rfl

@[simp] theorem disposeInternals_internalSubscriptions (st : PMState) :
    (disposeInternals st).internalSubscriptions = [] := rfl

@[simp] theorem disposeInternals_disposedLog (st : PMState) :
    (disposeInternals st).disposedLog = st.disposedLog ++ st.internalSubscriptions := rfl

@[simp] theorem disposeInternals_persistedSelectedEnv (st : PMState) :
    (disposeInternals st).persistedSelectedEnv = st.persistedSelectedEnv := rfl

@[simp] theorem observerEnv_disposeInternals (st : PMState) (d : String) :
    observerEnv (disposeInternals st) d = observerEnv st d := rfl

@[simp] theorem createAuxResources_observers (st : PMState) (dir : String) :
    (createAuxResources st dir).observers = st.observers := rfl

@[simp] theorem createAuxResources_poolActiveDir (st : PMState) (dir : String) :
    (createAuxResources st dir).poolActiveDir = st.poolActiveDir := rfl

@[simp] theorem createAuxResources_internalSubscriptions (st : PMState) (dir : String) :
    (createAuxResources st dir).internalSubscriptions
      = st.internalSubscriptions ++ [AuxRes.taskManager dir, AuxRes.testManager dir] := rfl

@[simp] theorem createAuxResources_disposedLog (st : PMState) (dir : String) :
    (createAuxResources st dir).disposedLog = st.disposedLog := rfl

@[simp] theorem createAuxResources_taskManagerField (st : PMState) (dir : String) :
    (createAuxResources st dir).taskManagerField = some (AuxRes.taskManager dir) := rfl

@[simp] theorem createAuxResources_persistedSelectedEnv (st : PMState) (dir : String) :
    (createAuxResources st dir).persistedSelectedEnv = st.persistedSelectedEnv := rfl

@[simp] theorem observerEnv_createAuxResources (st : PMState) (dir d : String) :
    observerEnv (createAuxResources st dir) d = observerEnv st d := rfl

@[simp] theorem switchPhase1_poolActiveDir (st : PMState) (dir : String) :
    (switchPhase1 st dir).poolActiveDir = st.poolActiveDir := by
  unfold switchPhase1; simp

@[simp] theorem switchPhase1_internalSubscriptions (st : PMState) (dir : String) :
    (switchPhase1 st dir).internalSubscriptions = st.internalSubscriptions := by
  unfold switchPhase1; simp

@[simp] theorem switchPhase1_disposedLog (st : PMState) (dir : String) :
    (switchPhase1 st dir).disposedLog = st.disposedLog := by
  unfold switchPhase1; simp

@[simp] theorem switchPhase1_taskManagerField (st : PMState) (dir : String) :
    (switchPhase1 st dir).taskManagerField = st.taskManagerField := by
  unfold switchPhase1; simp

@[simp] theorem switchPhase1_persistedSelectedEnv (st : PMState) (dir : String) :
    (switchPhase1 st dir).persistedSelectedEnv = st.persistedSelectedEnv := by
  unfold switchPhase1; simp

@[simp] theorem observerEnv_switchPhase1 (st : PMState) (dir d : String) :
    observerEnv (switchPhase1 st dir) d = observerEnv st d := by
  unfold switchPhase1
  rw [observerEnv_ensureObserver]
  rfl

theorem signalAll_firedSwitches (s : DebounceState) (l : List String) :
    (signalAll s l).firedSwitches = s.firedSwitches := by
  induction l generalizing s with
  | nil => rfl
  | cons x xs ih =>
    show (signalAll (onDidChangeProjectConfigSignal s x) xs).firedSwitches = s.firedSwitches
    rw [ih]
    rfl

/-! ## Claim theorems -/

/-- C3: when validation of the directory's configuration returns false,
`switchToProject` aborts: the active selection is unchanged, the previously
active project's auxiliary resources are neither disposed nor replaced,
nothing is persisted, and no observer's environment selection changes. -/
theorem c3_gateFailure_preservesState (st : PMState) (dir : String) (opts : SwitchOptions) :
    (switchToProject st (some dir) opts LintOutcome.invalid).poolActiveDir = st.poolActiveDir ∧
    (switchToProject st (some dir) opts LintOutcome.invalid).internalSubscriptions
      = st.internalSubscriptions ∧
    (switchToProject st (some dir) opts LintOutcome.invalid).disposedLog = st.disposedLog ∧
    (switchToProject st (some dir) opts LintOutcome.invalid).taskManagerField
      = st.taskManagerField ∧
    (switchToProject st (some dir) opts LintOutcome.invalid).persistedSelectedEnv
      = st.persistedSelectedEnv ∧
    ∀ d, observerEnv (switchToProject st (some dir) opts LintOutcome.invalid) d
      = observerEnv st d := by
  refine ⟨?_, ?_, ?_, ?_, ?_, ?_⟩ <;>
    simp [switchToProject, switchPhase2]

/-- C4 counterexample: from a state with project "A" active and its resources
live, a `switchToProject("B")` call in which the linter raises does NOT abort:
the active selection moves to "B" and A's auxiliary resources are disposed —
refuting the claim that a linter exception is treated as validation failure. -/
theorem c4_linterThrow_counterexample :
    (switchToProject activeAState (some "B") ⟨none, false⟩ LintOutcome.throws).poolActiveDir
      = some "B" ∧
    (switchToProject activeAState (some "B") ⟨none, false⟩ LintOutcome.throws).disposedLog
      = [AuxRes.taskManager "A", AuxRes.testManager "A"] ∧
    ¬((some "B" : Option String) = activeAState.poolActiveDir) := by decide

/-- C4 amended: a linter exception is caught and logged (part_001 lines
333-335) and the switch then proceeds exactly as if validation had succeeded —
the code fails open, not closed: the run with a throwing linter equals the run
with a successful validation, for every state, directory and options. -/
theorem c4_linterThrow_failsOpen (st : PMState) (projectDir? : Option String)
    (opts : SwitchOptions) :
    switchToProject st projectDir? opts LintOutcome.throws
      = switchToProject st projectDir? opts LintOutcome.valid := by
  cases projectDir? <;> rfl

/-- C7 counterexample: a signal for directory "A" followed, within the debounce
window, by a signal for the DIFFERENT directory "B" cancels A's pending timer:
after the remaining timer expires, only `switchToProject("B", {force:true})`
has fired and no switch for "A" ever fires — refuting the claims that at most
one timer is outstanding *per directory* and that a timer for A is superseded
only by a newer signal for A itself. -/
theorem c7_crossDirectorySupersede_counterexample :
    (timerExpire (onDidChangeProjectConfigSignal
        (onDidChangeProjectConfigSignal debInit "A") "B")).firedSwitches = [("B", true)] ∧
    ¬(("A", true) ∈ (timerExpire (onDidChangeProjectConfigSignal
        (onDidChangeProjectConfigSignal debInit "A") "B")).firedSwitches) := by decide

/-- C7 amended: the manager keeps a single debounce timer shared by all
directories (`this._configChangedTimeout`); any newer signal — for any
directory — cancels and replaces it. A burst of signals within one debounce
window, ending with a signal for directory `d`, fires exactly one
`switchToProject(d, {force:true})` when the timer expires. -/
theorem c7_sharedTimer_lastSignalWins (s : DebounceState) (ds : List String) (d : String) :
    timerExpire (signalAll s (ds ++ [d]))
      = { configChangedTimeout := none
          firedSwitches := s.firedSwitches ++ [(d, true)] } := by
  have h1 : signalAll s (ds ++ [d])
      = onDidChangeProjectConfigSignal (signalAll s ds) d := by
    simp [signalAll, List.foldl_append]
  rw [h1]
  show timerExpire { signalAll s ds with configChangedTimeout := some d } = _
  simp [timerExpire, signalAll_firedSwitches]

/-- C8 (code bug): the delay expression of line 206,
`ProjectManager.CONFIG_CHANGED_DELAY * 1000`, looks up `CONFIG_CHANGED_DELAY`
on the class object, where it does not exist (line 146 declares an instance
field), so the `setTimeout` delay evaluates to `NaN` — not the 3000
milliseconds that the declared 3-second constant would give. -/
theorem c8_delayExpression_nan :
    configChangedTimerDelay = JSNumber.nan ∧
    ¬(configChangedTimerDelay
        = JSNumber.num (ProjectManager.CONFIG_CHANGED_DELAY * 1000)) ∧
    ProjectManager.CONFIG_CHANGED_DELAY * 1000 = 3000 := by decide

/-- C10: `PythonPrompt.prompt` resolves with the abort status exactly on
"Abort pioarduino IDE Installation", with the custom-executable status (and
the path attached) exactly on "I have Python" plus a non-empty input-box
result, and with the try-again status (and no executable) in every other
interaction — including "Install Python", a dismissed dialog, and a cancelled
or empty input box. -/
theorem c10_promptStatus (sel : PythonPrompt.Selection) :
    (sel = PythonPrompt.Selection.abortInstallation ∧
      PythonPrompt.prompt sel
        = { status := PythonPrompt.STATUS_ABORT, pythonExecutable := none }) ∨
    (∃ exe, ¬(exe = "") ∧ sel = PythonPrompt.Selection.iHavePython (some exe) ∧
      PythonPrompt.prompt sel
        = { status := PythonPrompt.STATUS_CUSTOMEXE, pythonExecutable := some exe }) ∨
    PythonPrompt.prompt sel
      = { status := PythonPrompt.STATUS_TRY_AGAIN, pythonExecutable := none } := by
  cases sel with
  | installPython => right; right; rfl
  | iHavePython input =>
    cases input with
    | none => right; right; rfl
    | some exe =>
      by_cases h : exe = ""
      · right; right; simp [PythonPrompt.prompt, h]
      · right; left
        exact ⟨exe, h, rfl, by simp [PythonPrompt.prompt, h]⟩
  | tryAgain => right; right; rfl
  | abortInstallation => left; exact ⟨rfl, rfl⟩
  | dismissed => right; right; rfl

/-- C1 counterexample: from a fresh manager, `switchToProject("A")` suspended
at validation while `switchToProject("B")` runs to completion does NOT detect
any staleness on resuming: A's continuation mutates the pool and the final
active selection is "A" with A's auxiliary resources live — not "B" as the
claim states. -/
theorem c1_staleToken_counterexample :
    (interleavedRun pmInit "A" "B").poolActiveDir = some "A" ∧
    ¬((interleavedRun pmInit "A" "B").poolActiveDir = some "B") ∧
    (interleavedRun pmInit "A" "B").internalSubscriptions
      = [AuxRes.taskManager "A", AuxRes.testManager "A"] := by decide

/-- C1 amended: `switchToProject` holds no switch token and performs no
serialization. When a call for `dirA` from an idle manager is suspended at its
validation await while a call for `dirB` completes, A's resumed continuation
proceeds unconditionally on its stale snapshot: it disposes B's freshly
created auxiliary resources and ends with `dirA` as the active selection —
the last continuation to resume wins. -/
theorem c1_lastResumedWins (st : PMState) (dirA dirB : String)
    (h : st.poolActiveDir = none) :
    (interleavedRun st dirA dirB).poolActiveDir = some dirA ∧
    (interleavedRun st dirA dirB).internalSubscriptions
      = [AuxRes.taskManager dirA, AuxRes.testManager dirA] ∧
    (interleavedRun st dirA dirB).disposedLog
      = (st.disposedLog ++ st.internalSubscriptions)
        ++ [AuxRes.taskManager dirB, AuxRes.testManager dirB] := by
  refine ⟨?_, ?_, ?_⟩ <;>
    simp [interleavedRun, switchToProject, switchPhase2, switchSnapshot,
      getActiveObserverEnv, h]

/-- C1 witness: the amended behaviour at a concrete idle state. -/
theorem c1_lastResumedWins_witness :
    (interleavedRun pmInit "projA" "projB").poolActiveDir = some "projA" :=
  (c1_lastResumedWins pmInit "projA" "projB" rfl).1

/-- A completed `switchToProject` call either leaves the auxiliary resources
and the disposal log untouched (missing directory, validation failure, or the
short-circuit of lines 346-351), or disposes every live auxiliary resource and
leaves exactly the target directory's fresh task/test pair live. -/
theorem switchStep_resources (st : PMState) (dir : String) (opts : SwitchOptions)
    (lint : LintOutcome) :
    ((switchToProject st (some dir) opts lint).internalSubscriptions
        = st.internalSubscriptions ∧
     (switchToProject st (some dir) opts lint).disposedLog = st.disposedLog) ∨
    ((switchToProject st (some dir) opts lint).internalSubscriptions
        = [AuxRes.taskManager dir, AuxRes.testManager dir] ∧
     (switchToProject st (some dir) opts lint).disposedLog
        = st.disposedLog ++ st.internalSubscriptions) := by
  cases lint with
  | invalid => left; constructor <;> simp [switchToProject, switchPhase2]
  | valid =>
    simp only [switchToProject, switchPhase2]
    split
    · right; constructor <;> simp
    · left; constructor <;> simp
  | throws =>
    simp only [switchToProject, switchPhase2]
    split
    · right; constructor <;> simp
    · left; constructor <;> simp

theorem auxOk_applyRequest (st : PMState) (r : SwitchRequest)
    (h : auxOk st = true) : auxOk (applyRequest st r) = true := by
  cases r with
  | mk projectDir opts lint =>
    cases projectDir with
    | none => exact h
    | some dir =>
      rcases switchStep_resources st dir opts lint with ⟨h1, _⟩ | ⟨h1, _⟩
      · unfold auxOk applyRequest at *
        rw [h1]
        exact h
      · unfold auxOk applyRequest at *
        rw [h1]
        simp

theorem runStates_auxOk (rs : List SwitchRequest) (st : PMState)
    (h : auxOk st = true) : ∀ s ∈ runStates st rs, auxOk s = true := by
  induction rs generalizing st with
  | nil =>
    intro s hs
    simp [runStates] at hs
    rw [hs]
    exact h
  | cons r rest ih =>
    intro s hs
    simp only [runStates, List.mem_cons] at hs
    rcases hs with hs | hs
    · rw [hs]; exact h
    · exact ih (applyRequest st r) (auxOk_applyRequest st r h) s hs

/-- C2: along every sequence of completed `switchToProject` calls from a fresh
manager, at every serialization point the live auxiliary resources (task
manager, test manager) belong to at most one project directory; and every
single call either leaves the resources untouched or disposes all current ones
in full — appending them to the disposal log — before exactly the new
directory's pair is live. -/
theorem c2_auxSingleOwner :
    (∀ (requests : List SwitchRequest), ∀ s ∈ runStates pmInit requests,
      auxOk s = true) ∧
    (∀ (st : PMState) (dir : String) (opts : SwitchOptions) (lint : LintOutcome),
      ((switchToProject st (some dir) opts lint).internalSubscriptions
          = st.internalSubscriptions ∧
       (switchToProject st (some dir) opts lint).disposedLog = st.disposedLog) ∨
      ((switchToProject st (some dir) opts lint).internalSubscriptions
          = [AuxRes.taskManager dir, AuxRes.testManager dir] ∧
       (switchToProject st (some dir) opts lint).disposedLog
          = st.disposedLog ++ st.internalSubscriptions)) :=
  ⟨fun requests => runStates_auxOk requests pmInit rfl, switchStep_resources⟩

/-- C2 witness: the invariant at the serialization point after one concrete
completed call. -/
theorem c2_auxSingleOwner_witness :
    auxOk (switchToProject pmInit (some "proj2") ⟨none, false⟩ LintOutcome.valid)
      = true :=
  c2_auxSingleOwner.1 [⟨some "proj2", ⟨none, false⟩, LintOutcome.valid⟩]
    (switchToProject pmInit (some "proj2") ⟨none, false⟩ LintOutcome.valid)
    (by simp [runStates, applyRequest])

/-- With no explicit `env` option, the environment step leaves the observer's
selection unchanged whenever the persisted record already agrees with it. -/
theorem resolveEnv_noEnvOpt_target (st : PMState) (dir : String) (b : Bool)
    (hpers : getProjectItemState st dir = observerEnv st dir) :
    observerEnv (resolveEnvStep st dir ⟨none, b⟩) dir = observerEnv st dir := by
  unfold resolveEnvStep
  cases hr : observerEnv st dir with
  | none => simp [hr, hpers]
  | some x => simp [hr]

/-- Post-state of a validated call that takes the real transition because the
target directory differs from the active one: exactly the fresh task/test pair
is live, everything previously live is disposed, the target is active, and the
persisted record for the target agrees with its observer's selection. -/
theorem switch_transition_post (st : PMState) (dir : String) (opts : SwitchOptions)
    (h : ¬(st.poolActiveDir = some dir)) :
    (switchToProject st (some dir) opts LintOutcome.valid).internalSubscriptions
      = [AuxRes.taskManager dir, AuxRes.testManager dir] ∧
    (switchToProject st (some dir) opts LintOutcome.valid).disposedLog
      = st.disposedLog ++ st.internalSubscriptions ∧
    (switchToProject st (some dir) opts LintOutcome.valid).poolActiveDir = some dir ∧
    (switchToProject st (some dir) opts LintOutcome.valid).taskManagerField
      = some (AuxRes.taskManager dir) ∧
    getProjectItemState (switchToProject st (some dir) opts LintOutcome.valid) dir
      = observerEnv (switchToProject st (some dir) opts LintOutcome.valid) dir := by
  simp only [switchToProject, switchPhase2]
  rw [if_pos ?hc]
  case hc =>
    right; right; left
    simpa [switchSnapshot] using h
  refine ⟨by simp, by simp, by simp, by simp, ?_⟩
  have hpool2 : (showSelectedEnv (createAuxResources (poolSwitch (disposeInternals
      (resolveEnvStep (switchPhase1 st dir) dir opts)) dir) dir)).poolActiveDir
      = some dir := by simp
  unfold getProjectItemState
  rw [saveActiveProjectState_persisted_of_active _ dir hpool2]
  rw [assocGet_upsert_self]
  simp

/-- A validated, unforced, option-free call for the already-active directory
short-circuits (lines 346-351): no disposal, no pool switch, no new auxiliary
resources, provided the persisted record agrees with the observer's cached
selection — which holds after any completed successful switch. -/
theorem switch_shortCircuit (st : PMState) (dir : String)
    (hpool : st.poolActiveDir = some dir)
    (hpers : getProjectItemState st dir = observerEnv st dir) :
    (switchToProject st (some dir) ⟨none, false⟩ LintOutcome.valid).internalSubscriptions
      = st.internalSubscriptions ∧
    (switchToProject st (some dir) ⟨none, false⟩ LintOutcome.valid).disposedLog
      = st.disposedLog ∧
    (switchToProject st (some dir) ⟨none, false⟩ LintOutcome.valid).poolActiveDir
      = st.poolActiveDir ∧
    (switchToProject st (some dir) ⟨none, false⟩ LintOutcome.valid).taskManagerField
      = st.taskManagerField := by
  have hpers1 : getProjectItemState (switchPhase1 st dir) dir
      = observerEnv (switchPhase1 st dir) dir := by
    simp only [observerEnv_switchPhase1, getProjectItemState,
      switchPhase1_persistedSelectedEnv]
    exact hpers
  simp only [switchToProject, switchPhase2]
  rw [if_neg ?hc]
  case hc =>
    intro hcond
    rcases hcond with hf | hn | hd | he
    · exact absurd hf (by decide)
    · rw [switchSnapshot] at hn
      simp [hpool] at hn
    · exact hd (by simp [switchSnapshot, hpool])
    · apply he
      have hcur : (switchSnapshot st).currentEnv = observerEnv st dir := by
        simp [switchSnapshot, getActiveObserverEnv, hpool]
      rw [hcur, resolveEnv_noEnvOpt_target (switchPhase1 st dir) dir false hpers1,
        observerEnv_switchPhase1]
  refine ⟨by simp, by simp, by simp, by simp⟩

/-- C5: from any state in which `dir` is not yet the active directory, two
consecutive validated `switchToProject(dir)` calls with no `env` option and no
`force` flag perform exactly one teardown/create cycle: the first call
disposes all previously live resources and creates `dir`'s pair; the second
call satisfies the short-circuit condition of lines 346-351 and performs no
disposal, no pool switch and no auxiliary-resource construction. -/
theorem c5_idempotentSecondCall (st : PMState) (dir : String)
    (h : ¬(st.poolActiveDir = some dir)) :
    (switchToProject st (some dir) ⟨none, false⟩ LintOutcome.valid).internalSubscriptions
      = [AuxRes.taskManager dir, AuxRes.testManager dir] ∧
    (switchToProject st (some dir) ⟨none, false⟩ LintOutcome.valid).disposedLog
      = st.disposedLog ++ st.internalSubscriptions ∧
    (switchToProject (switchToProject st (some dir) ⟨none, false⟩ LintOutcome.valid)
        (some dir) ⟨none, false⟩ LintOutcome.valid).internalSubscriptions
      = (switchToProject st (some dir) ⟨none, false⟩ LintOutcome.valid).internalSubscriptions ∧
    (switchToProject (switchToProject st (some dir) ⟨none, false⟩ LintOutcome.valid)
        (some dir) ⟨none, false⟩ LintOutcome.valid).disposedLog
      = (switchToProject st (some dir) ⟨none, false⟩ LintOutcome.valid).disposedLog ∧
    (switchToProject (switchToProject st (some dir) ⟨none, false⟩ LintOutcome.valid)
        (some dir) ⟨none, false⟩ LintOutcome.valid).poolActiveDir
      = (switchToProject st (some dir) ⟨none, false⟩ LintOutcome.valid).poolActiveDir ∧
    (switchToProject (switchToProject st (some dir) ⟨none, false⟩ LintOutcome.valid)
        (some dir) ⟨none, false⟩ LintOutcome.valid).taskManagerField
      = (switchToProject st (some dir) ⟨none, false⟩ LintOutcome.valid).taskManagerField := by
  obtain ⟨h1, h2, h3, _h4, h5⟩ := switch_transition_post st dir ⟨none, false⟩ h
  obtain ⟨g1, g2, g3, g4⟩ :=
    switch_shortCircuit (switchToProject st (some dir) ⟨none, false⟩ LintOutcome.valid)
      dir h3 h5
  exact ⟨h1, h2, g1, g2, g3, g4⟩

/-- C5 witness: the two-call scenario from a fresh manager. -/
theorem c5_idempotentSecondCall_witness :
    (switchToProject pmInit (some "projX") ⟨none, false⟩ LintOutcome.valid).internalSubscriptions
      = [AuxRes.taskManager "projX", AuxRes.testManager "projX"] ∧
    (switchToProject (switchToProject pmInit (some "projX") ⟨none, false⟩ LintOutcome.valid)
        (some "projX") ⟨none, false⟩ LintOutcome.valid).disposedLog
      = (switchToProject pmInit (some "projX") ⟨none, false⟩ LintOutcome.valid).disposedLog :=
  ⟨(c5_idempotentSecondCall pmInit "projX" (by decide)).1,
   (c5_idempotentSecondCall pmInit "projX" (by decide)).2.2.2.1⟩

/-- C9: environment selection round-trips through persistence. A successful
`switchToProject(A, {env: x})` from a fresh manager records `x` on A's
observer and persists `A -> x`; after a process restart (in-memory state gone,
persisted record kept), a `switchToProject(A)` with no explicit `env` and no
cached observer selection resolves the active environment to `x` from the
persisted record — the explicit option having won first, the persisted value
being used only when no cached selection exists. -/
theorem c9_envPersistenceRoundTrip (dirA x : String) :
    observerEnv (switchToProject pmInit (some dirA) ⟨some (some x), false⟩
      LintOutcome.valid) dirA = some x ∧
    getProjectItemState (switchToProject pmInit (some dirA) ⟨some (some x), false⟩
      LintOutcome.valid) dirA = some x ∧
    observerEnv (switchToProject (restartPreservingPersisted
        (switchToProject pmInit (some dirA) ⟨some (some x), false⟩ LintOutcome.valid))
        (some dirA) ⟨none, false⟩ LintOutcome.valid) dirA = some x ∧
    (switchToProject (restartPreservingPersisted
        (switchToProject pmInit (some dirA) ⟨some (some x), false⟩ LintOutcome.valid))
        (some dirA) ⟨none, false⟩ LintOutcome.valid).poolActiveDir = some dirA ∧
    getActiveObserverEnv (switchToProject (restartPreservingPersisted
        (switchToProject pmInit (some dirA) ⟨some (some x), false⟩ LintOutcome.valid))
        (some dirA) ⟨none, false⟩ LintOutcome.valid) = some x := by
  refine ⟨?_, ?_, ?_, ?_, ?_⟩ <;>
    simp [switchToProject, switchPhase2, switchPhase1, switchSnapshot,
      getActiveObserverEnv, resolveEnvStep, setObserverEnv, ensureObserver, hasKey,
      assocGet, upsert, observerEnv, getProjectItemState, disposeInternals, poolSwitch,
      createAuxResources, showSelectedEnv, saveActiveProjectState,
      updateProjectItemState, pmInit, restartPreservingPersisted]

theorem getSelected_eq_chain (dirs : List String) (current lastDir : Option String) :
    getSelectedProjectDir dirs current lastDir
      = if memCandidate dirs current then current
        else if memCandidate dirs lastDir then lastDir
        else dirs.head? := by
  cases dirs with
  | nil =>
    cases current <;> cases lastDir <;> simp [getSelectedProjectDir, memCandidate]
  | cons d ds => simp [getSelectedProjectDir]

theorem findActive_eq_resolve (activateOnFocus : Bool) (dirs : List String)
    (focused current lastDir : Option String) :
    findActiveProjectDir activateOnFocus dirs focused current lastDir
      = ActiveSelectionPolicy.resolve dirs activateOnFocus focused current lastDir := by
  cases activateOnFocus with
  | false =>
    simp [findActiveProjectDir, ActiveSelectionPolicy.resolve, getSelected_eq_chain]
  | true =>
    cases focused with
    | none =>
      simp [findActiveProjectDir, ActiveSelectionPolicy.resolve,
        getActiveEditorProjectDir, getSelected_eq_chain, memCandidate]
    | some f =>
      by_cases hf : f ∈ dirs
      · simp [findActiveProjectDir, ActiveSelectionPolicy.resolve,
          getActiveEditorProjectDir, memCandidate, hf]
      · simp [findActiveProjectDir, ActiveSelectionPolicy.resolve,
          getActiveEditorProjectDir, getSelected_eq_chain, memCandidate, hf]

theorem resolve_cons_ne_none (d : String) (ds : List String) (b : Bool)
    (f c l : Option String) :
    ¬(ActiveSelectionPolicy.resolve (d :: ds) b f c l = none) := by
  unfold ActiveSelectionPolicy.resolve
  split
  · next h =>
    cases f with
    | none => simp [memCandidate] at h
    | some x => simp
  · split
    · next h =>
      cases c with
      | none => simp [memCandidate] at h
      | some x => simp
    · split
      · next h =>
        cases l with
        | none => simp [memCandidate] at h
        | some x => simp
      · simp

/-- C6: the active-directory resolution implements exactly the spec's
tie-break order — the focused editor's directory when the activate-on-focus
option is enabled and it is a candidate; else the currently active directory
if still a candidate; else the persisted last directory if a candidate; else
the first candidate in enumeration order — and returns none exactly when the
candidate list is empty. -/
theorem c6_resolutionOrder (activateOnFocus : Bool) (dirs : List String)
    (focused current lastDir : Option String) :
    findActiveProjectDir activateOnFocus dirs focused current lastDir
      = ActiveSelectionPolicy.resolve dirs activateOnFocus focused current lastDir ∧
    (findActiveProjectDir activateOnFocus dirs focused current lastDir = none
      ↔ dirs = []) := by
  refine ⟨findActive_eq_resolve activateOnFocus dirs focused current lastDir, ?_⟩
  rw [findActive_eq_resolve]
  cases dirs with
  | nil =>
    refine iff_of_true ?_ rfl
    cases focused <;> cases current <;> cases lastDir <;>
      simp [ActiveSelectionPolicy.resolve, memCandidate]
  | cons d ds =>
    exact iff_of_false
      (resolve_cons_ne_none d ds activateOnFocus focused current lastDir) (by simp)
